import Mathlib

/-!
Shallow embedding of the chitin-engine-lib Python client (src/chitin/):
the native (ctypes FFI) adapter `_ffi.py`, the HTTP sidecar adapter
`_http.py`, and the dispatching `Engine` class `_engine.py`.

Python's dynamically-typed JSON-decoded values are modelled by `PyVal`;
raised exceptions by `PyExc`; fallible Python functions by `Except`.
The external decision engine is opaque: each adapter operation is a
function of the engine's observable response for that one call
(status code, out-parameters and last-error buffer for FFI; HTTP
status/body for the sidecar).  `json.loads` is an abstract parameter
`loads : String → Option PyVal` (`none` = raises `JSONDecodeError`).
-/

namespace Chitin

/-- A Python value as produced by `json.loads`, plus `None`. -/
inductive PyVal where
  | none
  | bool (b : Bool)
  | int (n : Int)
  | str (s : String)
  | list (xs : List PyVal)
  | dict (fs : List (String × PyVal))

/-- Python exceptions that the client code can raise. -/
inductive PyExc where
  | chitinError (status : PyVal) (message : PyVal)
  | keyError (key : String)
  | valueError
  | typeError
  | attributeError
  | unicodeDecodeError
  | jsonDecodeError
  | osError (message : String)

/-- Status codes from chitin.h (`_ffi.py` / `_http.py`). -/
def CHITIN_OK : Int := 0

def CHITIN_ERR_INVALID : Int := -1

def CHITIN_ERR_DENIED : Int := -2

def CHITIN_ERR_ESCALATED : Int := -3

def CHITIN_ERR_INTERNAL : Int := -4

def CHITIN_ERR_NOT_FOUND : Int := -5

/-- `d.get(k)` on a Python dict (keys looked up first-match). -/
def pyGet (fs : List (String × PyVal)) (k : String) : Option PyVal :=
  (fs.find? (fun p => p.1 == k)).map Prod.snd

/-- `d.get(k, dflt)` on a Python dict. -/
def pyGetD (fs : List (String × PyVal)) (k : String) (dflt : PyVal) : PyVal :=
  (pyGet fs k).getD dflt

/-- Python truthiness of a JSON-decoded value (`bool(v)`, `v or w`). -/
def pyTruthy : PyVal → Bool
  | .none => false
  | .bool b => b
  | .int n => n != 0
  | .str s => s != ""
  | .list xs => !xs.isEmpty
  | .dict fs => !fs.isEmpty

/-- Python `v == n` for an int literal `n` (True equals 1, False equals 0;
values of other types are never equal to an int). -/
def pyEqInt (v : PyVal) (n : Int) : Bool :=
  match v with
  | .int m => m == n
  | .bool b => (if b then (1 : Int) else 0) == n
  | _ => false

/-- Python `int(v)` on a JSON-decoded value. -/
def pyToInt : PyVal → Except PyExc Int
  | .int n => .ok n
  | .bool b => .ok (if b then 1 else 0)
  | .str s =>
      match s.toInt? with
      | some n => .ok n
      | Option.none => .error .valueError
  | _ => .error .typeError

/-- `Decision` from `_types.py`.  Python dataclass fields are dynamically
typed, so `outcome`, `rule_id` and `reason` hold whatever `PyVal` the
adapter stored (the FFI adapter stores strings and `None`; the HTTP
adapter stores raw response-body values). -/
structure Decision where
  allowed : Bool
  outcome : PyVal
  event_id : Int
  rule_id : PyVal
  reason : PyVal

/-- `ExplainResult` from `_types.py`, with dynamically typed fields. -/
structure ExplainResult where
  text : PyVal
  trace_chain : PyVal

/-! ## Native (FFI) adapter, from `_ffi.py` -/

/-- A length-prefixed buffer handed out by the engine through an
out-parameter pair (`char**`, `size_t*`): `len` bytes at the pointer,
`text` their UTF-8 decoding (`none` when the bytes are not valid UTF-8,
in which case `raw.decode` raises `UnicodeDecodeError`). -/
structure OutBuf where
  len : Nat
  text : Option String
deriving DecidableEq

/-- The engine's observable answer to one `chitin_last_error` call:
its status and the written buffer (`none` = null pointer). -/
structure LastErr where
  st : Int
  buf : Option OutBuf
deriving DecidableEq

/-- `_ChitinFFI._last_error`, instrumented: the returned (or raised)
value together with the number of `chitin_free_string` calls made on
the received buffer. -/
def lastErrorRun (le : LastErr) : Except PyExc String × Nat :=
  match le.buf with
  | Option.none => (.ok "unknown error", 0)
  | some b =>
      if le.st = CHITIN_ERR_NOT_FOUND then (.ok "unknown error", 0)
      else
        match b.text with
        | some s => (.ok s, 1)
        | Option.none => (.error .unicodeDecodeError, 1)

/-- `_ChitinFFI._last_error`, value part. -/
def lastErrorMsg (le : LastErr) : Except PyExc String :=
  (lastErrorRun le).1

/-- `raise ChitinError(st, self._last_error())`: evaluating the
`_last_error()` argument may itself raise, which then propagates. -/
def raiseWithLastError {α : Type} (st : Int) (le : LastErr) : Except PyExc α :=
  match lastErrorMsg le with
  | .error ex => .error ex
  | .ok msg => .error (.chitinError (.int st) (.str msg))

/-- The engine's observable answer to one FFI call that writes a
`uint64` out-parameter (`chitin_ingest`, `chitin_propose`,
`chitin_record_result`): the status, the out-parameter's value after
the call, and the last-error channel consulted on failure. -/
structure FFIResp where
  st : Int
  out_id : Nat
  lastErr : LastErr
deriving DecidableEq

/-- The engine's observable answer to one `chitin_is_traced` call
(`int32` out-parameter). -/
structure FFIBoolResp where
  st : Int
  out_result : Int
  lastErr : LastErr
deriving DecidableEq

/-- The engine's observable answer to one call with no out-parameter
(`chitin_register_tool`). -/
structure FFIUnitResp where
  st : Int
  lastErr : LastErr
deriving DecidableEq

/-- The engine's observable answer to one `chitin_explain` call:
status, the result buffer out-parameters, and the last-error channel. -/
structure FFIBufResp where
  st : Int
  buf : Option OutBuf
  lastErr : LastErr
deriving DecidableEq

/-- `_ChitinFFI.ingest` as a function of the engine's response. -/
def ffiIngest (r : FFIResp) : Except PyExc Int :=
  if r.st ≠ CHITIN_OK then raiseWithLastError r.st r.lastErr
  else .ok (r.out_id : Int)

/-- `_ChitinFFI.record_result` as a function of the engine's response. -/
def ffiRecordResult (r : FFIResp) : Except PyExc Int :=
  if r.st ≠ CHITIN_OK then raiseWithLastError r.st r.lastErr
  else .ok (r.out_id : Int)

/-- `_ChitinFFI.is_traced` as a function of the engine's response. -/
def ffiIsTraced (r : FFIBoolResp) : Except PyExc Bool :=
  if r.st ≠ CHITIN_OK then raiseWithLastError r.st r.lastErr
  else .ok (r.out_result != 0)

/-- `_ChitinFFI.register_tool` as a function of the engine's response. -/
def ffiRegisterTool (r : FFIUnitResp) : Except PyExc Unit :=
  if r.st ≠ CHITIN_OK then raiseWithLastError r.st r.lastErr
  else .ok ()

/-- The deny-path payload extraction inside `_ChitinFFI.propose`:
`json.loads(err_json)` then `obj.get("rule_id")` / `obj.get("reason", "")`;
any failure (decode error, or `.get` on a non-dict raising
`AttributeError`) is caught and yields `(None, err_json)`. -/
def parseDenyPayload (loads : String → Option PyVal) (errJson : String) :
    PyVal × PyVal :=
  match loads errJson with
  | some (.dict fs) => (pyGetD fs "rule_id" .none, pyGetD fs "reason" (.str ""))
  | _ => (.none, .str errJson)

/-- `_ChitinFFI.propose` as a function of the engine's response. -/
def ffiPropose (loads : String → Option PyVal) (r : FFIResp) :
    Except PyExc Decision :=
  if r.st = CHITIN_OK then
    .ok ⟨true, .str "allow", (r.out_id : Int), .none, .none⟩
  else if r.st = CHITIN_ERR_DENIED ∨ r.st = CHITIN_ERR_ESCALATED then
    match lastErrorMsg r.lastErr with
    | .error ex => .error ex
    | .ok errJson =>
        let p := parseDenyPayload loads errJson
        let outcome : String := if r.st = CHITIN_ERR_DENIED then "deny" else "escalate"
        .ok ⟨false, .str outcome, (r.out_id : Int), p.1, p.2⟩
  else raiseWithLastError r.st r.lastErr

/-- `_ChitinFFI.explain`, instrumented: the returned (or raised) value
together with the number of `chitin_free_string` calls made on the
explain result buffer (frees of the separate last-error buffer are
counted by `lastErrorRun`). -/
def ffiExplainRun (loads : String → Option PyVal) (r : FFIBufResp) :
    Except PyExc ExplainResult × Nat :=
  if r.st ≠ CHITIN_OK then
    ((raiseWithLastError r.st r.lastErr : Except PyExc ExplainResult), 0)
  else
    match r.buf with
    | Option.none => (.ok ⟨.str "", .list []⟩, 0)
    | some b =>
        if b.len = 0 then (.ok ⟨.str "", .list []⟩, 0)
        else
          match b.text with
          | Option.none => (.error .unicodeDecodeError, 1)
          | some text =>
              match loads text with
              | some (.dict fs) =>
                  (.ok ⟨pyGetD fs "text" (.str ""),
                        pyGetD fs "trace_chain" (.list [])⟩, 1)
              | _ => (.ok ⟨.str text, .list []⟩, 1)

/-- `_ChitinFFI.explain`, value part. -/
def ffiExplain (loads : String → Option PyVal) (r : FFIBufResp) :
    Except PyExc ExplainResult :=
  (ffiExplainRun loads r).1

/-! ## HTTP sidecar adapter, from `_http.py` -/

/-- The raw body of a 2xx sidecar response: empty, JSON that decodes to
`v`, or bytes `json.loads` rejects. -/
inductive RawBody where
  | empty
  | json (v : PyVal)
  | invalid

/-- Is the raw body empty (`not raw` in `_post`)? -/
def RawBody.isEmpty : RawBody → Bool
  | .empty => true
  | _ => false

/-- The observable outcome of one `urllib.request.urlopen` exchange:
a 2xx/204 response with a body, an `HTTPError` (non-2xx; `payload` is
the JSON decoding of its body, `none` when undecodable, in which case
`_post` substitutes the empty dict; `errStr` is `str(e)`), or a
`URLError` (connection-level failure; `reason` is `str(e.reason)`). -/
inductive HttpResp where
  | ok (status : Nat) (raw : RawBody)
  | httpError (payload : Option PyVal) (errStr : String)
  | urlError (reason : String)

/-- `_ChitinHTTP._post` as a function of the exchange's outcome. -/
def post (resp : HttpResp) : Except PyExc PyVal :=
  match resp with
  | .ok status raw =>
      if status = 204 || raw.isEmpty then .ok (.dict [])
      else
        match raw with
        | .empty => .ok (.dict [])
        | .json v => .ok v
        | .invalid => .error .jsonDecodeError
  | .httpError payload errStr =>
      match payload.getD (.dict []) with
      | .dict fs =>
          .error (.chitinError (pyGetD fs "status" (.int CHITIN_ERR_INTERNAL))
                               (pyGetD fs "error" (.str errStr)))
      | _ => .error .attributeError
  | .urlError reason =>
      .error (.chitinError (.int CHITIN_ERR_INTERNAL) (.str reason))

/-- `_ChitinHTTP.ingest` as a function of the exchange's outcome. -/
def httpIngest (resp : HttpResp) : Except PyExc Int := do
  let out ← post resp
  match out with
  | .dict fs =>
      let status := pyGetD fs "status" (.int CHITIN_OK)
      if pyEqInt status CHITIN_OK then
        match pyGet fs "event_id" with
        | some v => pyToInt v
        | Option.none => .error (.keyError "event_id")
      else .error (.chitinError status (pyGetD fs "error" (.str "ingest failed")))
  | _ => .error .attributeError

/-- `_ChitinHTTP.propose` as a function of the exchange's outcome. -/
def httpPropose (resp : HttpResp) : Except PyExc Decision := do
  let out ← post resp
  match out with
  | .dict fs => do
      let ev ←
        match pyGet fs "event_id" with
        | some v => pyToInt v
        | Option.none => .error (.keyError "event_id")
      .ok ⟨pyTruthy (pyGetD fs "allowed" (.bool false)),
           pyGetD fs "outcome" (.str "deny"),
           ev,
           pyGetD fs "rule_id" .none,
           pyGetD fs "reason" .none⟩
  | _ => .error .attributeError

/-- `_ChitinHTTP.record_result` as a function of the exchange's outcome. -/
def httpRecordResult (resp : HttpResp) : Except PyExc Int := do
  let out ← post resp
  match out with
  | .dict fs =>
      let status := pyGetD fs "status" (.int CHITIN_OK)
      if pyEqInt status CHITIN_OK then
        match pyGet fs "event_id" with
        | some v => pyToInt v
        | Option.none => .error (.keyError "event_id")
      else .error (.chitinError status (pyGetD fs "error" (.str "record_result failed")))
  | _ => .error .attributeError

/-- `_ChitinHTTP.is_traced` as a function of the exchange's outcome.
Note `out.get("status") != CHITIN_OK` uses no default in the check, but
defaults to `CHITIN_ERR_INTERNAL` in the raised error. -/
def httpIsTraced (resp : HttpResp) : Except PyExc Bool := do
  let out ← post resp
  match out with
  | .dict fs =>
      if pyEqInt ((pyGet fs "status").getD .none) CHITIN_OK then
        .ok (pyTruthy (pyGetD fs "traced" (.bool false)))
      else
        .error (.chitinError (pyGetD fs "status" (.int CHITIN_ERR_INTERNAL))
                             (pyGetD fs "error" (.str "is_traced failed")))
  | _ => .error .attributeError

/-- `_ChitinHTTP.explain` as a function of the exchange's outcome
(`out.get("text") or ""` and `out.get("trace_chain") or []` use Python
truthiness). -/
def httpExplain (resp : HttpResp) : Except PyExc ExplainResult := do
  let out ← post resp
  match out with
  | .dict fs =>
      let status := pyGetD fs "status" (.int CHITIN_OK)
      if pyEqInt status CHITIN_OK then
        let t := (pyGet fs "text").getD .none
        let tc := (pyGet fs "trace_chain").getD .none
        .ok ⟨if pyTruthy t then t else .str "",
             if pyTruthy tc then tc else .list []⟩
      else .error (.chitinError status (pyGetD fs "error" (.str "explain failed")))
  | _ => .error .attributeError

/-- `_ChitinHTTP.register_tool` as a function of the exchange's
outcome: posts and discards the response body. -/
def httpRegisterTool (resp : HttpResp) : Except PyExc Unit := do
  let _ ← post resp
  .ok ()

/-! ## Engine dispatch layer, from `_engine.py` -/

/-- `Engine._backend`: which transport the session holds. -/
inductive Backend where
  | ffi
  | http
  | closed
deriving DecidableEq

/-- The session state: backend tag and the native handle
(`Engine._handle`). -/
structure EngineState where
  backend : Backend
  handle : Option Unit
deriving DecidableEq

/-- The message of the error raised when session construction finds no
usable transport (`Engine.__init__`). -/
def engineUnavailableMsg : String :=
  "Chitin engine unavailable: native library failed to load and CHITIN_SIDECAR_URL is not set."

/-- Which exceptions `Engine.__init__`'s transport cascade catches
(`except (ChitinError, OSError)`). -/
def isCaught : PyExc → Bool
  | .chitinError _ _ => true
  | .osError _ => true
  | _ => false

/-- `Engine.__init__` as a function of the FFI construction attempt's
outcome and of `os.environ.get("CHITIN_SIDECAR_URL")` (`if url:` is
Python truthiness, so an empty string is treated as unset). -/
def engineInit (ffiResult : Except PyExc Unit) (url : Option String) :
    Except PyExc EngineState :=
  match ffiResult with
  | .ok _ => .ok ⟨.ffi, some ()⟩
  | .error e =>
      if isCaught e then
        match url with
        | some u =>
            if u ≠ "" then .ok ⟨.http, Option.none⟩
            else .error (.chitinError (.int (-1)) (.str engineUnavailableMsg))
        | Option.none =>
            .error (.chitinError (.int (-1)) (.str engineUnavailableMsg))
      else .error e

/-- `Engine.close`: frees the native handle when present, then clears
the backend; returns the new state and the number of
`chitin_engine_free` calls made. -/
def close (s : EngineState) : EngineState × Nat :=
  match s.backend, s.handle with
  | .ffi, some _ => (⟨.closed, Option.none⟩, 1)
  | _, _ => (⟨.closed, Option.none⟩, 0)

/-- The shared shape of every `Engine` operation:
`self._ensure_open()` then dispatch to the selected adapter.  `ffiAct`
and `httpAct` stand for the adapter call the operation would make; the
second component counts adapter calls performed. -/
def engineCall {α : Type} (s : EngineState) (ffiAct httpAct : Except PyExc α) :
    Except PyExc α × Nat :=
  match s.backend with
  | .closed => (.error (.chitinError (.int (-1)) (.str "Engine is closed")), 0)
  | .ffi => (ffiAct, 1)
  | .http => (httpAct, 1)

/-- `Engine.ingest`. -/
def Engine.ingest (s : EngineState) (fr : FFIResp) (hr : HttpResp) :
    Except PyExc Int × Nat :=
  engineCall s (ffiIngest fr) (httpIngest hr)

/-- `Engine.propose`. -/
def Engine.propose (s : EngineState) (loads : String → Option PyVal)
    (fr : FFIResp) (hr : HttpResp) : Except PyExc Decision × Nat :=
  engineCall s (ffiPropose loads fr) (httpPropose hr)

/-- `Engine.record_result`. -/
def Engine.record_result (s : EngineState) (fr : FFIResp) (hr : HttpResp) :
    Except PyExc Int × Nat :=
  engineCall s (ffiRecordResult fr) (httpRecordResult hr)

/-- `Engine.is_traced`. -/
def Engine.is_traced (s : EngineState) (fr : FFIBoolResp) (hr : HttpResp) :
    Except PyExc Bool × Nat :=
  engineCall s (ffiIsTraced fr) (httpIsTraced hr)

/-- `Engine.set_label`: neither `_ChitinFFI` nor `_ChitinHTTP` defines a
`set_label` method, so on an open session the dispatch itself raises
`AttributeError`; on a closed session `_ensure_open` raises first. -/
def Engine.set_label (s : EngineState) : Except PyExc Unit × Nat :=
  engineCall s (.error .attributeError) (.error .attributeError)

/-- `Engine.explain`. -/
def Engine.explain (s : EngineState) (loads : String → Option PyVal)
    (fr : FFIBufResp) (hr : HttpResp) : Except PyExc ExplainResult × Nat :=
  engineCall s (ffiExplain loads fr) (httpExplain hr)

/-- `Engine.register_tool`. -/
def Engine.register_tool (s : EngineState) (fr : FFIUnitResp) (hr : HttpResp) :
    Except PyExc Unit × Nat :=
  engineCall s (ffiRegisterTool fr) (httpRegisterTool hr)

/-! ## Substring checking (for message-content claims) -/

/-- Does the text start with the pattern (both as character lists)? -/
def charsStartWith : List Char → List Char → Bool
  | [], _ => true
  | _ :: _, [] => false
  | p :: ps, c :: cs => p == c && charsStartWith ps cs

/-- Does the pattern occur anywhere in the text (character lists)? -/
def charsContain (pat : List Char) : List Char → Bool
  | [] => charsStartWith pat []
  | c :: cs => charsStartWith pat (c :: cs) || charsContain pat cs

/-- Does string `s` contain `pat` as a substring? -/
def containsSub (s pat : String) : Bool :=
  charsContain pat.data s.data

/-- Modelled from the spec: "Native and RPC adapters given equivalent
engine state produce identical Decision field sets for the same propose
input (transport-invariance property)", with equivalent state meaning
"same status code / response fields for that input".  For one propose
call this relates the native engine's observable response `f` to a
sidecar 2xx response body `fs`: on `OK`, the body carries
`allowed=true`, `outcome="allow"`, the same event id, and no
rule/reason fields; on `DENIED`/`ESCALATED`, the native last-error
fetch yields a JSON object and the body carries `allowed=false`, the
matching outcome, the same event id, and exactly the `rule_id` and
`reason` fields of that JSON object. -/
def equivProposeState (loads : String → Option PyVal) (f : FFIResp)
    (fs : List (String × PyVal)) : Prop :=
  (f.st = CHITIN_OK ∧
    pyGet fs "allowed" = some (.bool true) ∧
    pyGet fs "outcome" = some (.str "allow") ∧
    pyGet fs "event_id" = some (.int (f.out_id : Int)) ∧
    pyGet fs "rule_id" = Option.none ∧
    pyGet fs "reason" = Option.none) ∨
  (∃ errJson efs,
    ((f.st = CHITIN_ERR_DENIED ∧ pyGet fs "outcome" = some (.str "deny")) ∨
     (f.st = CHITIN_ERR_ESCALATED ∧ pyGet fs "outcome" = some (.str "escalate"))) ∧
    lastErrorMsg f.lastErr = .ok errJson ∧
    loads errJson = some (.dict efs) ∧
    pyGet fs "allowed" = some (.bool false) ∧
    pyGet fs "event_id" = some (.int (f.out_id : Int)) ∧
    pyGet fs "rule_id" = pyGet efs "rule_id" ∧
    pyGet fs "reason" = pyGet efs "reason")

/-- The engine state reports a reason for the propose outcome: either
the proposal was allowed (both adapters then use `None`), or the
structured error object carries a `reason` field. -/
def reasonPresent (loads : String → Option PyVal) (f : FFIResp) : Prop :=
  f.st = CHITIN_OK ∨
  ∃ errJson efs, lastErrorMsg f.lastErr = .ok errJson ∧
    loads errJson = some (.dict efs) ∧ (pyGet efs "reason").isSome = true

/-! ## Theorems -/

/-- C5: after `close`, every operation (ingest, propose, record_result,
is_traced, set_label, explain, register_tool) raises the
"Engine is closed" exceptional failure and performs no call on either
transport backend, regardless of which transport the session had used. -/
theorem C5_closed_ops_fail_without_transport_call
    (s : EngineState) (loads : String → Option PyVal)
    (fr : FFIResp) (br : FFIBoolResp) (xr : FFIBufResp) (ur : FFIUnitResp)
    (hr : HttpResp) :
    Engine.ingest (close s).1 fr hr =
      (.error (.chitinError (.int (-1)) (.str "Engine is closed")), 0) ∧
    Engine.propose (close s).1 loads fr hr =
      (.error (.chitinError (.int (-1)) (.str "Engine is closed")), 0) ∧
    Engine.record_result (close s).1 fr hr =
      (.error (.chitinError (.int (-1)) (.str "Engine is closed")), 0) ∧
    Engine.is_traced (close s).1 br hr =
      (.error (.chitinError (.int (-1)) (.str "Engine is closed")), 0) ∧
    Engine.set_label (close s).1 =
      (.error (.chitinError (.int (-1)) (.str "Engine is closed")), 0) ∧
    Engine.explain (close s).1 loads xr hr =
      (.error (.chitinError (.int (-1)) (.str "Engine is closed")), 0) ∧
    Engine.register_tool (close s).1 ur hr =
      (.error (.chitinError (.int (-1)) (.str "Engine is closed")), 0) := by
  rcases s with ⟨b, h⟩
  cases b <;> cases h <;> exact ⟨rfl, rfl, rfl, rfl, rfl, rfl, rfl⟩

/-- C6 counterexample: when the native attempt fails (an `OSError`) and
no remote target is configured, the raised failure's message names the
remote-target mechanism (`CHITIN_SIDECAR_URL`) but does not mention the
library-path override (`CHITIN_LIB_PATH`), nor a path at all — so it
does not name both remediation paths as the claim states. -/
theorem C6_counterexample :
    engineInit (.error (.osError "load failed")) Option.none =
      .error (.chitinError (.int (-1)) (.str engineUnavailableMsg)) ∧
    containsSub engineUnavailableMsg "CHITIN_SIDECAR_URL" = true ∧
    containsSub engineUnavailableMsg "CHITIN_LIB_PATH" = false ∧
    containsSub engineUnavailableMsg "path" = false ∧
    containsSub engineUnavailableMsg "PATH" = false :=
  ⟨rfl, by decide, by decide, by decide, by decide⟩

/-- C6 (amended): when session construction fails on both transports,
it raises an exceptional failure whose fixed message mentions the
remote-target mechanism (`CHITIN_SIDECAR_URL`) and reports that the
native library failed to load, but does not name the library-path
override. -/
theorem C6_unavailable_message (e : PyExc) (url : Option String)
    (hc : isCaught e = true) (hu : url = Option.none ∨ url = some "") :
    engineInit (.error e) url =
      .error (.chitinError (.int (-1)) (.str engineUnavailableMsg)) ∧
    containsSub engineUnavailableMsg "CHITIN_SIDECAR_URL" = true ∧
    containsSub engineUnavailableMsg "CHITIN_LIB_PATH" = false := by
  refine ⟨?_, by decide, by decide⟩
  rcases hu with h | h <;> subst h <;> simp [engineInit, hc]

/-- C6 witness for the amended theorem. -/
theorem C6_unavailable_message_witness :
    isCaught (.osError "load failed") = true ∧
    ((Option.none : Option String) = Option.none ∨
      (Option.none : Option String) = some "") ∧
    (engineInit (.error (.osError "load failed")) Option.none =
        .error (.chitinError (.int (-1)) (.str engineUnavailableMsg)) ∧
      containsSub engineUnavailableMsg "CHITIN_SIDECAR_URL" = true ∧
      containsSub engineUnavailableMsg "CHITIN_LIB_PATH" = false) :=
  ⟨rfl, Or.inl rfl,
    C6_unavailable_message (.osError "load failed") Option.none rfl (Or.inl rfl)⟩

/-- C8 counterexample: a 2xx response with an empty body makes the RPC
`explain` return a success value (an empty `ExplainResult`), not fail
as the claim states. -/
theorem C8_counterexample :
    httpExplain (.ok 200 .empty) = .ok ⟨.str "", .list []⟩ := rfl

/-- C8 (amended): a 2xx response with an empty body is accepted as a
successful result for register_tool and also for explain (which yields
an empty `ExplainResult`); ingest, propose and record_result fail with
a `KeyError` on the missing `event_id` field, and is_traced fails with
an `INTERNAL` `ChitinError`. -/
theorem C8_empty_body_behavior :
    httpRegisterTool (.ok 200 .empty) = .ok () ∧
    httpExplain (.ok 200 .empty) = .ok ⟨.str "", .list []⟩ ∧
    httpIngest (.ok 200 .empty) = .error (.keyError "event_id") ∧
    httpPropose (.ok 200 .empty) = .error (.keyError "event_id") ∧
    httpRecordResult (.ok 200 .empty) = .error (.keyError "event_id") ∧
    httpIsTraced (.ok 200 .empty) =
      .error (.chitinError (.int CHITIN_ERR_INTERNAL) (.str "is_traced failed")) :=
  ⟨rfl, rfl, rfl, rfl, rfl, rfl⟩

/-- C7 counterexample: a non-2xx response whose body decodes to JSON
that is not an object (here the array `[1]`) does not raise a
`ChitinError` defaulting the status to `INTERNAL` — `payload.get`
raises an uncaught `AttributeError` instead, an exception that carries
no status at all. -/
theorem C7_counterexample :
    post (.httpError (some (.list [PyVal.int 1]))
        "HTTP Error 500: Internal Server Error") =
      .error .attributeError ∧
    PyExc.attributeError ≠
      PyExc.chitinError (.int CHITIN_ERR_INTERNAL)
        (.str "HTTP Error 500: Internal Server Error") :=
  ⟨rfl, fun h => PyExc.noConfusion h⟩

/-- C7 (amended): in the RPC adapter, a non-2xx response whose body is
undecodable raises a `ChitinError` with status `INTERNAL` and `str(e)`
as its message, and one whose body decodes to a JSON object raises a
`ChitinError` built from its `status`/`error` fields with those same
defaults; but a body decoding to non-object JSON makes `payload.get`
raise an uncaught `AttributeError` instead.  A connection-level failure
raises `ChitinError` with status `INTERNAL` and the underlying network
error as its message.  Whatever `_post` raises propagates unchanged
through every operation. -/
theorem C7_transport_failures_classified
    (fs : List (String × PyVal)) (errStr reason : String)
    (resp : HttpResp) (ex : PyExc) (w : PyVal)
    (hw : ∀ gs : List (String × PyVal), w ≠ .dict gs)
    (hpe : post resp = .error ex) :
    post (.httpError Option.none errStr) =
      .error (.chitinError (.int CHITIN_ERR_INTERNAL) (.str errStr)) ∧
    post (.httpError (some (.dict fs)) errStr) =
      .error (.chitinError (pyGetD fs "status" (.int CHITIN_ERR_INTERNAL))
                           (pyGetD fs "error" (.str errStr))) ∧
    post (.urlError reason) =
      .error (.chitinError (.int CHITIN_ERR_INTERNAL) (.str reason)) ∧
    post (.httpError (some w) errStr) = .error .attributeError ∧
    httpIngest resp = .error ex ∧
    httpPropose resp = .error ex ∧
    httpRecordResult resp = .error ex ∧
    httpIsTraced resp = .error ex ∧
    httpExplain resp = .error ex ∧
    httpRegisterTool resp = .error ex := by
  refine ⟨rfl, rfl, rfl, ?_, ?_, ?_, ?_, ?_, ?_, ?_⟩
  · cases w with
    | dict gs => exact absurd rfl (hw gs)
    | none => rfl
    | bool b => rfl
    | int n => rfl
    | str s => rfl
    | list xs => rfl
  all_goals
    simp only [httpIngest, httpPropose, httpRecordResult, httpIsTraced,
      httpExplain, httpRegisterTool, hpe, bind, Except.bind]

/-- C7 witness for the amended theorem (a connection failure, a
non-object error body, and propagation through ingest). -/
theorem C7_transport_failures_classified_witness :
    PyVal.list [PyVal.int 1] ≠ PyVal.dict [] ∧
    post (.urlError "connection refused") =
      .error (.chitinError (.int CHITIN_ERR_INTERNAL) (.str "connection refused")) ∧
    post (.httpError (some (.list [PyVal.int 1])) "e") = .error .attributeError ∧
    httpIngest (.urlError "connection refused") =
      .error (.chitinError (.int CHITIN_ERR_INTERNAL) (.str "connection refused")) :=
  ⟨fun h => PyVal.noConfusion h, rfl,
    (C7_transport_failures_classified [] "e" "r" (.urlError "connection refused")
      (.chitinError (.int CHITIN_ERR_INTERNAL) (.str "connection refused"))
      (.list [PyVal.int 1]) (fun _ h => PyVal.noConfusion h) rfl).2.2.2.1,
    (C7_transport_failures_classified [] "e" "r" (.urlError "connection refused")
      (.chitinError (.int CHITIN_ERR_INTERNAL) (.str "connection refused"))
      (.list [PyVal.int 1]) (fun _ h => PyVal.noConfusion h) rfl).2.2.2.2.1⟩

/-- Definitional shape of `httpIngest` on a 200 response with a JSON
object body. -/
theorem httpIngest_dict_eq (fs : List (String × PyVal)) :
    httpIngest (.ok 200 (.json (.dict fs))) =
      (if pyEqInt (pyGetD fs "status" (.int CHITIN_OK)) CHITIN_OK then
        (match pyGet fs "event_id" with
         | some v => pyToInt v
         | Option.none => .error (.keyError "event_id"))
      else
        .error (.chitinError (pyGetD fs "status" (.int CHITIN_OK))
                             (pyGetD fs "error" (.str "ingest failed")))) := rfl

/-- Definitional shape of `httpRecordResult` on a 200 response with a
JSON object body. -/
theorem httpRecordResult_dict_eq (fs : List (String × PyVal)) :
    httpRecordResult (.ok 200 (.json (.dict fs))) =
      (if pyEqInt (pyGetD fs "status" (.int CHITIN_OK)) CHITIN_OK then
        (match pyGet fs "event_id" with
         | some v => pyToInt v
         | Option.none => .error (.keyError "event_id"))
      else
        .error (.chitinError (pyGetD fs "status" (.int CHITIN_OK))
                             (pyGetD fs "error" (.str "record_result failed")))) := rfl

/-- Definitional shape of `httpIsTraced` on a 200 response with a JSON
object body. -/
theorem httpIsTraced_dict_eq (fs : List (String × PyVal)) :
    httpIsTraced (.ok 200 (.json (.dict fs))) =
      (if pyEqInt ((pyGet fs "status").getD .none) CHITIN_OK then
        .ok (pyTruthy (pyGetD fs "traced" (.bool false)))
      else
        .error (.chitinError (pyGetD fs "status" (.int CHITIN_ERR_INTERNAL))
                             (pyGetD fs "error" (.str "is_traced failed")))) := rfl

/-- Definitional shape of `httpExplain` on a 200 response with a JSON
object body. -/
theorem httpExplain_dict_eq (fs : List (String × PyVal)) :
    httpExplain (.ok 200 (.json (.dict fs))) =
      (if pyEqInt (pyGetD fs "status" (.int CHITIN_OK)) CHITIN_OK then
        .ok ⟨if pyTruthy ((pyGet fs "text").getD .none)
               then (pyGet fs "text").getD .none else .str "",
             if pyTruthy ((pyGet fs "trace_chain").getD .none)
               then (pyGet fs "trace_chain").getD .none else .list []⟩
      else
        .error (.chitinError (pyGetD fs "status" (.int CHITIN_OK))
                             (pyGetD fs "error" (.str "explain failed")))) := rfl

/-- Definitional shape of `httpPropose` on a 200 response with a JSON
object body. -/
theorem httpPropose_dict_eq (fs : List (String × PyVal)) :
    httpPropose (.ok 200 (.json (.dict fs))) =
      (match pyGet fs "event_id" with
       | some v =>
          (match pyToInt v with
           | .ok n =>
              .ok ⟨pyTruthy (pyGetD fs "allowed" (.bool false)),
                   pyGetD fs "outcome" (.str "deny"),
                   n,
                   pyGetD fs "rule_id" .none,
                   pyGetD fs "reason" .none⟩
           | .error ex => .error ex)
       | Option.none => .error (.keyError "event_id")) := by
  have hpost : post (.ok 200 (.json (.dict fs))) = .ok (.dict fs) := rfl
  cases h : pyGet fs "event_id" with
  | none =>
      simp only [httpPropose, hpost, h, bind, Except.bind]
  | some v =>
      cases hv : pyToInt v <;>
        simp only [httpPropose, hpost, h, hv, bind, Except.bind]

/-- C10: the RPC `is_traced` raises (defaulting the status to
`INTERNAL`) for every 2xx body whose `status` field is missing or not
equal to `OK`, whereas `ingest`, `record_result` and `explain` treat a
missing `status` field as `OK` and proceed to read the result fields. -/
theorem C10_is_traced_strict_status
    (fs gs : List (String × PyVal))
    (h1 : pyEqInt ((pyGet fs "status").getD .none) CHITIN_OK = false)
    (h2 : pyGet gs "status" = Option.none) :
    httpIsTraced (.ok 200 (.json (.dict fs))) =
      .error (.chitinError (pyGetD fs "status" (.int CHITIN_ERR_INTERNAL))
                           (pyGetD fs "error" (.str "is_traced failed"))) ∧
    httpIngest (.ok 200 (.json (.dict gs))) =
      (match pyGet gs "event_id" with
       | some v => pyToInt v
       | Option.none => .error (.keyError "event_id")) ∧
    httpRecordResult (.ok 200 (.json (.dict gs))) =
      (match pyGet gs "event_id" with
       | some v => pyToInt v
       | Option.none => .error (.keyError "event_id")) ∧
    httpExplain (.ok 200 (.json (.dict gs))) =
      .ok ⟨if pyTruthy ((pyGet gs "text").getD .none)
             then (pyGet gs "text").getD .none else .str "",
           if pyTruthy ((pyGet gs "trace_chain").getD .none)
             then (pyGet gs "trace_chain").getD .none else .list []⟩ := by
  refine ⟨?_, ?_, ?_, ?_⟩
  · rw [httpIsTraced_dict_eq, if_neg]
    simp [h1]
  · rw [httpIngest_dict_eq, if_pos]
    simp [pyGetD, h2, pyEqInt, CHITIN_OK]
  · rw [httpRecordResult_dict_eq, if_pos]
    simp [pyGetD, h2, pyEqInt, CHITIN_OK]
  · rw [httpExplain_dict_eq, if_pos]
    simp [pyGetD, h2, pyEqInt, CHITIN_OK]

/-- C10 witness. -/
theorem C10_is_traced_strict_status_witness :
    pyEqInt ((pyGet [("status", PyVal.int (-5))] "status").getD .none) CHITIN_OK = false ∧
    pyGet ([] : List (String × PyVal)) "status" = Option.none ∧
    httpIsTraced (.ok 200 (.json (.dict [("status", PyVal.int (-5))]))) =
      .error (.chitinError (pyGetD [("status", PyVal.int (-5))] "status" (.int CHITIN_ERR_INTERNAL))
                           (pyGetD [("status", PyVal.int (-5))] "error" (.str "is_traced failed"))) :=
  ⟨by decide, rfl,
    (C10_is_traced_strict_status [("status", PyVal.int (-5))] [] (by decide) rfl).1⟩

/-- C3 counterexample: the native `ingest` receiving engine status
`DENIED` raises a `ChitinError` that carries status `-2` itself, not
`INTERNAL` (`-4`) as the claim states. -/
theorem C3_counterexample :
    ffiIngest ⟨CHITIN_ERR_DENIED, 0, ⟨CHITIN_OK, some ⟨4, some "boom"⟩⟩⟩ =
      .error (.chitinError (.int (-2)) (.str "boom")) ∧
    PyVal.int (-2) ≠ PyVal.int (-4) :=
  ⟨rfl, by simp⟩

/-- C3 (amended): for every operation other than propose and the RPC
register_tool, when the engine produces `DENIED` or `ESCALATED` the
client raises an exceptional `ChitinError` carrying that status code
itself (with the engine's last-error message natively, or the body's
`error` field over RPC) — it is not converted to a verdict, but
neither is it remapped to `INTERNAL` (`-4`).  The RPC register_tool
discards a 2xx response body, so a `DENIED`/`ESCALATED` status
embedded there is silently accepted as success; such a status reaches
its caller only through a non-2xx response, where `_post` again
propagates the body's status unchanged. -/
theorem C3_denied_escalated_propagated
    (st : Int) (hst : st = CHITIN_ERR_DENIED ∨ st = CHITIN_ERR_ESCALATED)
    (oid : Nat) (oi : Int) (bu : Option OutBuf)
    (loads : String → Option PyVal) (le : LastErr) (msg : String)
    (hmsg : lastErrorMsg le = .ok msg)
    (fs : List (String × PyVal)) (hfs : pyGet fs "status" = some (.int st))
    (errStr : String) :
    ffiIngest ⟨st, oid, le⟩ = .error (.chitinError (.int st) (.str msg)) ∧
    ffiRecordResult ⟨st, oid, le⟩ = .error (.chitinError (.int st) (.str msg)) ∧
    ffiIsTraced ⟨st, oi, le⟩ = .error (.chitinError (.int st) (.str msg)) ∧
    ffiRegisterTool ⟨st, le⟩ = .error (.chitinError (.int st) (.str msg)) ∧
    ffiExplain loads ⟨st, bu, le⟩ = .error (.chitinError (.int st) (.str msg)) ∧
    httpIngest (.ok 200 (.json (.dict fs))) =
      .error (.chitinError (.int st) (pyGetD fs "error" (.str "ingest failed"))) ∧
    httpRecordResult (.ok 200 (.json (.dict fs))) =
      .error (.chitinError (.int st) (pyGetD fs "error" (.str "record_result failed"))) ∧
    httpIsTraced (.ok 200 (.json (.dict fs))) =
      .error (.chitinError (.int st) (pyGetD fs "error" (.str "is_traced failed"))) ∧
    httpExplain (.ok 200 (.json (.dict fs))) =
      .error (.chitinError (.int st) (pyGetD fs "error" (.str "explain failed"))) ∧
    post (.httpError (some (.dict fs)) errStr) =
      .error (.chitinError (.int st) (pyGetD fs "error" (.str errStr))) ∧
    httpRegisterTool (.ok 200 (.json (.dict fs))) = .ok () ∧
    st ≠ CHITIN_ERR_INTERNAL := by
  have hne : st ≠ CHITIN_OK := by
    rcases hst with h | h <;> simp [h, CHITIN_OK, CHITIN_ERR_DENIED, CHITIN_ERR_ESCALATED]
  have heq : pyEqInt (.int st) CHITIN_OK = false := by
    simpa [pyEqInt, CHITIN_OK] using hne
  refine ⟨?_, ?_, ?_, ?_, ?_, ?_, ?_, ?_, ?_, ?_, ?_, ?_⟩
  · simp [ffiIngest, raiseWithLastError, hmsg, hne]
  · simp [ffiRecordResult, raiseWithLastError, hmsg, hne]
  · simp [ffiIsTraced, raiseWithLastError, hmsg, hne]
  · simp [ffiRegisterTool, raiseWithLastError, hmsg, hne]
  · simp [ffiExplain, ffiExplainRun, raiseWithLastError, hmsg, hne]
  · rw [httpIngest_dict_eq, pyGetD, hfs]
    simp [heq, pyGetD, hfs]
  · rw [httpRecordResult_dict_eq, pyGetD, hfs]
    simp [heq, pyGetD, hfs]
  · rw [httpIsTraced_dict_eq, hfs]
    simp [heq, pyGetD, hfs]
  · rw [httpExplain_dict_eq, pyGetD, hfs]
    simp [heq, pyGetD, hfs]
  · simp [post, pyGetD, hfs]
  · rfl
  · rcases hst with h | h <;>
      simp [h, CHITIN_ERR_INTERNAL, CHITIN_ERR_DENIED, CHITIN_ERR_ESCALATED]

/-- C3 witness for the amended theorem. -/
theorem C3_denied_escalated_propagated_witness :
    ((-2 : Int) = CHITIN_ERR_DENIED ∨ (-2 : Int) = CHITIN_ERR_ESCALATED) ∧
    lastErrorMsg ⟨CHITIN_OK, some ⟨4, some "boom"⟩⟩ = .ok "boom" ∧
    pyGet [("status", PyVal.int (-2))] "status" = some (.int (-2)) ∧
    (ffiRecordResult ⟨-2, 0, ⟨CHITIN_OK, some ⟨4, some "boom"⟩⟩⟩ =
      .error (.chitinError (.int (-2)) (.str "boom"))) :=
  ⟨Or.inl rfl, rfl, rfl,
    (C3_denied_escalated_propagated (-2) (Or.inl rfl) 0 0 Option.none
      (fun _ => Option.none) ⟨CHITIN_OK, some ⟨4, some "boom"⟩⟩ "boom" rfl
      [("status", PyVal.int (-2))] rfl "e").2.1⟩

/-- C9: whenever the native adapter receives a result buffer from the
engine — the last-error fetch (status not `NOT_FOUND`, non-null
pointer) or explain's JSON payload (status `OK`, non-null pointer,
nonzero length) — it calls `chitin_free_string` on that buffer exactly
once before returning, on every exit path, including when UTF-8
decoding of the buffer fails. -/
theorem C9_buffers_freed_exactly_once
    (loads : String → Option PyVal) (le : LastErr) (b : OutBuf)
    (hb : le.buf = some b) (hst : le.st ≠ CHITIN_ERR_NOT_FOUND)
    (r : FFIBufResp) (c : OutBuf)
    (hrb : r.buf = some c) (hrst : r.st = CHITIN_OK) (hlen : c.len ≠ 0) :
    (lastErrorRun le).2 = 1 ∧ (ffiExplainRun loads r).2 = 1 := by
  constructor
  · simp only [lastErrorRun, hb]
    rw [if_neg hst]
    cases b.text <;> rfl
  · rcases r with ⟨rst, rbuf, rle⟩
    simp only at hrb hrst
    subst hrb hrst
    cases ht : c.text with
    | none => simp [ffiExplainRun, CHITIN_OK, hlen, ht]
    | some text =>
        cases hl : loads text with
        | none => simp [ffiExplainRun, CHITIN_OK, hlen, ht, hl]
        | some v => cases v <;> simp [ffiExplainRun, CHITIN_OK, hlen, ht, hl]

/-- C9 witness (instantiated on the decode-failure path: both buffers
hold invalid UTF-8, and both are still freed exactly once). -/
theorem C9_buffers_freed_exactly_once_witness :
    ((⟨CHITIN_OK, some ⟨3, Option.none⟩⟩ : LastErr).buf = some ⟨3, Option.none⟩) ∧
    ((⟨CHITIN_OK, some ⟨3, Option.none⟩⟩ : LastErr).st ≠ CHITIN_ERR_NOT_FOUND) ∧
    ((⟨CHITIN_OK, some ⟨5, Option.none⟩, ⟨CHITIN_OK, Option.none⟩⟩ : FFIBufResp).buf =
      some ⟨5, Option.none⟩) ∧
    ((⟨CHITIN_OK, some ⟨5, Option.none⟩, ⟨CHITIN_OK, Option.none⟩⟩ : FFIBufResp).st =
      CHITIN_OK) ∧
    ((5 : Nat) ≠ 0) ∧
    ((lastErrorRun ⟨CHITIN_OK, some ⟨3, Option.none⟩⟩).2 = 1 ∧
      (ffiExplainRun (fun _ => Option.none)
        ⟨CHITIN_OK, some ⟨5, Option.none⟩, ⟨CHITIN_OK, Option.none⟩⟩).2 = 1) :=
  ⟨rfl, by decide, rfl, rfl, by decide,
    C9_buffers_freed_exactly_once (fun _ => Option.none)
      ⟨CHITIN_OK, some ⟨3, Option.none⟩⟩ ⟨3, Option.none⟩ rfl (by decide)
      ⟨CHITIN_OK, some ⟨5, Option.none⟩, ⟨CHITIN_OK, Option.none⟩⟩ ⟨5, Option.none⟩
      rfl rfl (by decide)⟩

/-- C4: the native propose returns `allowed=True`/`outcome="allow"`
with the out-parameter event id and `rule_id=None`, `reason=None` on
`OK`; on `DENIED`/`ESCALATED` it fetches the last structured error,
parses it as JSON to extract `rule_id` and `reason` (falling back to
`rule_id=None` and the raw error text as `reason` when parsing fails),
returning outcome `"deny"`/`"escalate"`; any other status raises a
`ChitinError` carrying that status and the last-error message. -/
theorem C4_ffi_propose_outcome_mapping
    (loads : String → Option PyVal) (r : FFIResp) (errJson : String)
    (efs : List (String × PyVal))
    (hmsg : lastErrorMsg r.lastErr = .ok errJson) :
    (r.st = CHITIN_OK →
      ffiPropose loads r = .ok ⟨true, .str "allow", (r.out_id : Int), .none, .none⟩) ∧
    (r.st = CHITIN_ERR_DENIED → loads errJson = some (.dict efs) →
      ffiPropose loads r = .ok ⟨false, .str "deny", (r.out_id : Int),
        pyGetD efs "rule_id" .none, pyGetD efs "reason" (.str "")⟩) ∧
    (r.st = CHITIN_ERR_ESCALATED → loads errJson = some (.dict efs) →
      ffiPropose loads r = .ok ⟨false, .str "escalate", (r.out_id : Int),
        pyGetD efs "rule_id" .none, pyGetD efs "reason" (.str "")⟩) ∧
    ((r.st = CHITIN_ERR_DENIED ∨ r.st = CHITIN_ERR_ESCALATED) →
      (∀ gs : List (String × PyVal), loads errJson ≠ some (.dict gs)) →
      ffiPropose loads r = .ok ⟨false,
        .str (if r.st = CHITIN_ERR_DENIED then "deny" else "escalate"),
        (r.out_id : Int), .none, .str errJson⟩) ∧
    (r.st ≠ CHITIN_OK → r.st ≠ CHITIN_ERR_DENIED → r.st ≠ CHITIN_ERR_ESCALATED →
      ffiPropose loads r = .error (.chitinError (.int r.st) (.str errJson))) := by
  refine ⟨?_, ?_, ?_, ?_, ?_⟩
  · intro h
    simp [ffiPropose, h]
  · intro h hld
    simp [ffiPropose, h, CHITIN_OK, CHITIN_ERR_DENIED, CHITIN_ERR_ESCALATED,
      hmsg, parseDenyPayload, hld]
  · intro h hld
    simp [ffiPropose, h, CHITIN_OK, CHITIN_ERR_DENIED, CHITIN_ERR_ESCALATED,
      hmsg, parseDenyPayload, hld]
  · intro h hnd
    rcases h with h | h <;>
      cases hl : loads errJson with
      | none =>
          simp [ffiPropose, h, CHITIN_OK, CHITIN_ERR_DENIED, CHITIN_ERR_ESCALATED,
            hmsg, parseDenyPayload, hl]
      | some v =>
          cases v with
          | dict gs => exact absurd hl (hnd gs)
          | none =>
              simp [ffiPropose, h, CHITIN_OK, CHITIN_ERR_DENIED, CHITIN_ERR_ESCALATED,
                hmsg, parseDenyPayload, hl]
          | bool b =>
              simp [ffiPropose, h, CHITIN_OK, CHITIN_ERR_DENIED, CHITIN_ERR_ESCALATED,
                hmsg, parseDenyPayload, hl]
          | int n =>
              simp [ffiPropose, h, CHITIN_OK, CHITIN_ERR_DENIED, CHITIN_ERR_ESCALATED,
                hmsg, parseDenyPayload, hl]
          | str s =>
              simp [ffiPropose, h, CHITIN_OK, CHITIN_ERR_DENIED, CHITIN_ERR_ESCALATED,
                hmsg, parseDenyPayload, hl]
          | list xs =>
              simp [ffiPropose, h, CHITIN_OK, CHITIN_ERR_DENIED, CHITIN_ERR_ESCALATED,
                hmsg, parseDenyPayload, hl]
  · intro h1 h2 h3
    rw [ffiPropose, if_neg h1, if_neg (by simp [h2, h3]),
      raiseWithLastError, hmsg]

/-- C4 witness (instantiated on the deny path with a parseable
structured error). -/
theorem C4_ffi_propose_outcome_mapping_witness :
    lastErrorMsg ⟨CHITIN_OK, some ⟨20, some "\x7b\"rule_id\": \"r1\"\x7d"⟩⟩ =
      .ok "\x7b\"rule_id\": \"r1\"\x7d" ∧
    ((⟨CHITIN_ERR_DENIED, 7, ⟨CHITIN_OK, some ⟨20, some "\x7b\"rule_id\": \"r1\"\x7d"⟩⟩⟩ :
        FFIResp).st = CHITIN_ERR_DENIED →
      (fun s => if s = "\x7b\"rule_id\": \"r1\"\x7d"
        then some (PyVal.dict [("rule_id", PyVal.str "r1")]) else Option.none)
          "\x7b\"rule_id\": \"r1\"\x7d" = some (.dict [("rule_id", PyVal.str "r1")]) →
      ffiPropose
        (fun s => if s = "\x7b\"rule_id\": \"r1\"\x7d"
          then some (PyVal.dict [("rule_id", PyVal.str "r1")]) else Option.none)
        ⟨CHITIN_ERR_DENIED, 7, ⟨CHITIN_OK, some ⟨20, some "\x7b\"rule_id\": \"r1\"\x7d"⟩⟩⟩ =
        .ok ⟨false, .str "deny", (7 : Int),
          pyGetD [("rule_id", PyVal.str "r1")] "rule_id" .none,
          pyGetD [("rule_id", PyVal.str "r1")] "reason" (.str "")⟩) :=
  ⟨rfl,
    (C4_ffi_propose_outcome_mapping
      (fun s => if s = "\x7b\"rule_id\": \"r1\"\x7d"
        then some (PyVal.dict [("rule_id", PyVal.str "r1")]) else Option.none)
      ⟨CHITIN_ERR_DENIED, 7, ⟨CHITIN_OK, some ⟨20, some "\x7b\"rule_id\": \"r1\"\x7d"⟩⟩⟩
      "\x7b\"rule_id\": \"r1\"\x7d" [("rule_id", PyVal.str "r1")] rfl).2.1⟩

/-- C2: on either transport, a deny or escalate verdict is returned as
a `Decision`, never raised.  Natively, propose returns a `Decision`
exactly when the engine status is in `OK, DENIED, ESCALATED` (given a
decodable last-error buffer) and raises for every status outside that
set; over RPC, a 2xx response whose body carries an integer-convertible
`event_id` always yields a `Decision`, whatever verdict it reports. -/
theorem C2_propose_returns_verdicts
    (loads : String → Option PyVal) (r : FFIResp) (msg : String)
    (hmsg : lastErrorMsg r.lastErr = .ok msg)
    (fs : List (String × PyVal)) (v : PyVal) (n : Int)
    (hev : pyGet fs "event_id" = some v) (hn : pyToInt v = .ok n) :
    ((r.st = CHITIN_OK ∨ r.st = CHITIN_ERR_DENIED ∨ r.st = CHITIN_ERR_ESCALATED) ↔
      ∃ d, ffiPropose loads r = .ok d) ∧
    ∃ d, httpPropose (.ok 200 (.json (.dict fs))) = .ok d := by
  constructor
  · constructor
    · rintro (h | h | h)
      · exact ⟨⟨true, .str "allow", (r.out_id : Int), .none, .none⟩,
          by simp [ffiPropose, h]⟩
      · refine ⟨⟨false, .str "deny", (r.out_id : Int),
          (parseDenyPayload loads msg).1, (parseDenyPayload loads msg).2⟩, ?_⟩
        rw [ffiPropose,
          if_neg (by simp [h, CHITIN_ERR_DENIED, CHITIN_OK]),
          if_pos (Or.inl h), hmsg]
        simp [h, CHITIN_ERR_DENIED]
      · refine ⟨⟨false, .str "escalate", (r.out_id : Int),
          (parseDenyPayload loads msg).1, (parseDenyPayload loads msg).2⟩, ?_⟩
        rw [ffiPropose,
          if_neg (by simp [h, CHITIN_ERR_ESCALATED, CHITIN_OK]),
          if_pos (Or.inr h), hmsg]
        simp [h, CHITIN_ERR_ESCALATED, CHITIN_ERR_DENIED]
    · rintro ⟨d, hd⟩
      by_contra hc
      push_neg at hc
      obtain ⟨h1, h2, h3⟩ := hc
      rw [ffiPropose, if_neg h1, if_neg (by simp [h2, h3]),
        raiseWithLastError, hmsg] at hd
      simp at hd
  · exact ⟨⟨pyTruthy (pyGetD fs "allowed" (.bool false)),
      pyGetD fs "outcome" (.str "deny"), n,
      pyGetD fs "rule_id" .none, pyGetD fs "reason" .none⟩,
      by simp only [httpPropose_dict_eq, hev, hn]⟩

/-- C2 witness (a denied native propose and a denying sidecar body both
yield Decisions). -/
theorem C2_propose_returns_verdicts_witness :
    lastErrorMsg ⟨CHITIN_OK, some ⟨4, some "nope"⟩⟩ = .ok "nope" ∧
    pyGet [("event_id", PyVal.int 5), ("allowed", PyVal.bool false),
      ("outcome", PyVal.str "deny")] "event_id" = some (.int 5) ∧
    pyToInt (.int 5) = .ok 5 ∧
    (((⟨CHITIN_ERR_DENIED, 3, ⟨CHITIN_OK, some ⟨4, some "nope"⟩⟩⟩ : FFIResp).st = CHITIN_OK ∨
      (⟨CHITIN_ERR_DENIED, 3, ⟨CHITIN_OK, some ⟨4, some "nope"⟩⟩⟩ : FFIResp).st = CHITIN_ERR_DENIED ∨
      (⟨CHITIN_ERR_DENIED, 3, ⟨CHITIN_OK, some ⟨4, some "nope"⟩⟩⟩ : FFIResp).st = CHITIN_ERR_ESCALATED) ↔
      ∃ d, ffiPropose (fun _ => Option.none)
        ⟨CHITIN_ERR_DENIED, 3, ⟨CHITIN_OK, some ⟨4, some "nope"⟩⟩⟩ = .ok d) ∧
    (∃ d, httpPropose (.ok 200 (.json (.dict [("event_id", PyVal.int 5),
      ("allowed", PyVal.bool false), ("outcome", PyVal.str "deny")]))) = .ok d) :=
  ⟨rfl, rfl, rfl,
    (C2_propose_returns_verdicts (fun _ => Option.none)
      ⟨CHITIN_ERR_DENIED, 3, ⟨CHITIN_OK, some ⟨4, some "nope"⟩⟩⟩ "nope" rfl
      [("event_id", PyVal.int 5), ("allowed", PyVal.bool false),
        ("outcome", PyVal.str "deny")] (.int 5) 5 rfl rfl).1,
    (C2_propose_returns_verdicts (fun _ => Option.none)
      ⟨CHITIN_ERR_DENIED, 3, ⟨CHITIN_OK, some ⟨4, some "nope"⟩⟩⟩ "nope" rfl
      [("event_id", PyVal.int 5), ("allowed", PyVal.bool false),
        ("outcome", PyVal.str "deny")] (.int 5) 5 rfl rfl).2⟩

/-- C1 counterexample: equivalent engine state for one denied propose —
the native last-error JSON carries a `rule_id` but no `reason`, and the
sidecar body mirrors exactly those fields — yields Decisions that agree
on `allowed`, `outcome`, `event_id` and `rule_id` but differ in
`reason`: the native adapter produces the empty string (its
`obj.get("reason", "")` default) while the RPC adapter produces `None`
(its `out.get("reason")` default). -/
theorem C1_counterexample :
    equivProposeState
      (fun s => if s = "\x7b\"rule_id\": \"r9\"\x7d"
        then some (PyVal.dict [("rule_id", PyVal.str "r9")]) else Option.none)
      ⟨CHITIN_ERR_DENIED, 7, ⟨CHITIN_OK, some ⟨20, some "\x7b\"rule_id\": \"r9\"\x7d"⟩⟩⟩
      [("allowed", PyVal.bool false), ("outcome", PyVal.str "deny"),
        ("event_id", PyVal.int 7), ("rule_id", PyVal.str "r9")] ∧
    ffiPropose
      (fun s => if s = "\x7b\"rule_id\": \"r9\"\x7d"
        then some (PyVal.dict [("rule_id", PyVal.str "r9")]) else Option.none)
      ⟨CHITIN_ERR_DENIED, 7, ⟨CHITIN_OK, some ⟨20, some "\x7b\"rule_id\": \"r9\"\x7d"⟩⟩⟩ =
      .ok ⟨false, .str "deny", 7, .str "r9", .str ""⟩ ∧
    httpPropose (.ok 200 (.json (.dict
      [("allowed", PyVal.bool false), ("outcome", PyVal.str "deny"),
        ("event_id", PyVal.int 7), ("rule_id", PyVal.str "r9")]))) =
      .ok ⟨false, .str "deny", 7, .str "r9", .none⟩ ∧
    PyVal.str "" ≠ PyVal.none :=
  ⟨Or.inr ⟨"\x7b\"rule_id\": \"r9\"\x7d", [("rule_id", PyVal.str "r9")],
    Or.inl ⟨rfl, rfl⟩, rfl, by simp, rfl, rfl, rfl, rfl⟩,
   rfl, rfl, fun h => PyVal.noConfusion h⟩

/-- C1 (amended): the native and RPC adapters, backed by engine
backends reporting equivalent state for the same propose input,
construct Decision values with identical `allowed`, `outcome`,
`event_id` and `rule_id` fields; the `reason` fields are also identical
whenever the engine state supplies a reason (the allow path, or a
structured error whose JSON carries a `reason` field) — when it does
not, the native adapter defaults `reason` to the empty string while the
RPC adapter defaults it to `None`. -/
theorem C1_transport_equivalence
    (loads : String → Option PyVal) (f : FFIResp) (fs : List (String × PyVal))
    (h : equivProposeState loads f fs) :
    ∃ d1 d2 : Decision, ffiPropose loads f = .ok d1 ∧
      httpPropose (.ok 200 (.json (.dict fs))) = .ok d2 ∧
      d1.allowed = d2.allowed ∧ d1.outcome = d2.outcome ∧
      d1.event_id = d2.event_id ∧ d1.rule_id = d2.rule_id ∧
      (reasonPresent loads f → d1.reason = d2.reason) := by
  rcases h with ⟨hst, ha, ho, he, hrid, hres⟩ |
    ⟨errJson, efs, hbr, hmsg, hld, ha, he, hrid, hres⟩
  · refine ⟨⟨true, .str "allow", (f.out_id : Int), .none, .none⟩,
      ⟨true, .str "allow", (f.out_id : Int), .none, .none⟩,
      ?_, ?_, rfl, rfl, rfl, rfl, fun _ => rfl⟩
    · simp [ffiPropose, hst]
    · rw [httpPropose_dict_eq, he]
      simp [pyToInt, pyGetD, ha, ho, hrid, hres, pyTruthy]
  · have hreason : pyGet fs "reason" = pyGet efs "reason" := hres
    have hffi : ∀ outc : String,
        (if f.st = CHITIN_ERR_DENIED then "deny" else "escalate") = outc →
        f.st ≠ CHITIN_OK → (f.st = CHITIN_ERR_DENIED ∨ f.st = CHITIN_ERR_ESCALATED) →
        ffiPropose loads f = .ok ⟨false, .str outc, (f.out_id : Int),
          pyGetD efs "rule_id" .none, pyGetD efs "reason" (.str "")⟩ := by
      intro outc houtc hne hd
      rw [ffiPropose, if_neg hne, if_pos hd, hmsg]
      simp [parseDenyPayload, hld, houtc]
    have hhttp : ∀ outc : String, pyGet fs "outcome" = some (.str outc) →
        httpPropose (.ok 200 (.json (.dict fs))) =
          .ok ⟨false, .str outc, (f.out_id : Int),
            pyGetD fs "rule_id" .none, pyGetD fs "reason" .none⟩ := by
      intro outc houtc
      rw [httpPropose_dict_eq, he]
      simp [pyToInt, pyGetD, ha, houtc, pyTruthy]
    have hrp : reasonPresent loads f →
        pyGetD efs "reason" (.str "") = pyGetD fs "reason" .none := by
      rintro (hok | ⟨ej, efs2, hmsg2, hld2, hsome⟩)
      · rcases hbr with ⟨hst, _⟩ | ⟨hst, _⟩ <;> rw [hst] at hok <;>
          simp [CHITIN_OK, CHITIN_ERR_DENIED, CHITIN_ERR_ESCALATED] at hok
      · rw [hmsg] at hmsg2
        injection hmsg2 with hj
        subst hj
        rw [hld] at hld2
        injection hld2 with hd2
        injection hd2 with hd3
        subst hd3
        obtain ⟨w, hw⟩ := Option.isSome_iff_exists.mp hsome
        simp [pyGetD, hreason, hw]
    have hrule : pyGetD efs "rule_id" .none = pyGetD fs "rule_id" .none := by
      simp [pyGetD, hrid]
    rcases hbr with ⟨hst, ho⟩ | ⟨hst, ho⟩
    · exact ⟨⟨false, .str "deny", (f.out_id : Int),
        pyGetD efs "rule_id" .none, pyGetD efs "reason" (.str "")⟩,
        ⟨false, .str "deny", (f.out_id : Int),
          pyGetD fs "rule_id" .none, pyGetD fs "reason" .none⟩,
        hffi "deny" (by simp [hst])
          (by simp [hst, CHITIN_ERR_DENIED, CHITIN_OK])
          (Or.inl hst),
        hhttp "deny" ho, rfl, rfl, rfl, hrule, hrp⟩
    · exact ⟨⟨false, .str "escalate", (f.out_id : Int),
        pyGetD efs "rule_id" .none, pyGetD efs "reason" (.str "")⟩,
        ⟨false, .str "escalate", (f.out_id : Int),
          pyGetD fs "rule_id" .none, pyGetD fs "reason" .none⟩,
        hffi "escalate"
          (by simp [hst, CHITIN_ERR_DENIED, CHITIN_ERR_ESCALATED])
          (by simp [hst, CHITIN_ERR_ESCALATED, CHITIN_OK])
          (Or.inr hst),
        hhttp "escalate" ho, rfl, rfl, rfl, hrule, hrp⟩

/-- C1 witness for the amended theorem (deny with a reason present:
both adapters report the same reason string). -/
theorem C1_transport_equivalence_witness :
    equivProposeState
      (fun s => if s = "\x7b\"reason\": \"why\"\x7d"
        then some (PyVal.dict [("reason", PyVal.str "why")]) else Option.none)
      ⟨CHITIN_ERR_DENIED, 2, ⟨CHITIN_OK, some ⟨18, some "\x7b\"reason\": \"why\"\x7d"⟩⟩⟩
      [("allowed", PyVal.bool false), ("outcome", PyVal.str "deny"),
        ("event_id", PyVal.int 2), ("reason", PyVal.str "why")] ∧
    (∃ d1 d2 : Decision,
      ffiPropose
        (fun s => if s = "\x7b\"reason\": \"why\"\x7d"
          then some (PyVal.dict [("reason", PyVal.str "why")]) else Option.none)
        ⟨CHITIN_ERR_DENIED, 2, ⟨CHITIN_OK, some ⟨18, some "\x7b\"reason\": \"why\"\x7d"⟩⟩⟩ =
        .ok d1 ∧
      httpPropose (.ok 200 (.json (.dict
        [("allowed", PyVal.bool false), ("outcome", PyVal.str "deny"),
          ("event_id", PyVal.int 2), ("reason", PyVal.str "why")]))) = .ok d2 ∧
      d1.allowed = d2.allowed ∧ d1.outcome = d2.outcome ∧
      d1.event_id = d2.event_id ∧ d1.rule_id = d2.rule_id ∧
      (reasonPresent
        (fun s => if s = "\x7b\"reason\": \"why\"\x7d"
          then some (PyVal.dict [("reason", PyVal.str "why")]) else Option.none)
        ⟨CHITIN_ERR_DENIED, 2, ⟨CHITIN_OK, some ⟨18, some "\x7b\"reason\": \"why\"\x7d"⟩⟩⟩ →
        d1.reason = d2.reason)) :=
  ⟨Or.inr ⟨"\x7b\"reason\": \"why\"\x7d", [("reason", PyVal.str "why")],
    Or.inl ⟨rfl, rfl⟩, rfl, by simp, rfl, rfl, rfl, rfl⟩,
   C1_transport_equivalence _ _ _
    (Or.inr ⟨"\x7b\"reason\": \"why\"\x7d", [("reason", PyVal.str "why")],
      Or.inl ⟨rfl, rfl⟩, rfl, by simp, rfl, rfl, rfl, rfl⟩)⟩

end Chitin
